import Mathlib

set_option maxRecDepth 8192

/-!
Verification of the MoodM8 backend chat handler (backend/main.py).

The handler is a single endpoint: it resolves a session id, timestamps the
request, runs a substring risk-keyword scan, and either returns a canned
crisis reply (crisis branch) or builds a prompt, calls the external
generative model, extracts the reply text, and returns it (non-crisis
branch).  On both branches it may persist an opaque ciphertext record when
the caller opted in and persistence is configured.

External effects (the model client, the document store, the UUID generator
and the clock) are modelled by an explicit environment `Env`; the handler
becomes the pure function `chat : Env → ChatRequest → ChatOutcome`, whose
outcome records the HTTP-level result, the prompts sent to the model, the
document passed to the store (if a write was attempted) and the documents
actually persisted.
-/

namespace MoodM8

/-- Substring scan on character lists: does `s` start with `pat`?
Models Python string containment (`pat in s`) together with `hasSub`. -/
def leadsWith : List Char → List Char → Bool
  | [], _ => true
  | _ :: _, [] => false
  | p :: ps, c :: cs => p = c && leadsWith ps cs

/-- `hasSub pat s = true` iff `pat` occurs as a contiguous substring of `s`.
Models the Python expression `pat in s` on strings. -/
def hasSub (pat : List Char) : List Char → Bool
  | [] => leadsWith pat []
  | c :: cs => leadsWith pat (c :: cs) || hasSub pat cs

/-- Python `pat in s` for strings. -/
def strIn (pat s : String) : Bool :=
  hasSub pat.toList s.toList

/-- `RISK_KEYWORDS` from backend/main.py lines 27-30. -/
def RISK_KEYWORDS : List String :=
  ["suicide", "kill myself", "want to die", "end my life",
   "hurt myself", "hurting myself", "die by suicide"]

/-- `SYSTEM_PROMPT` from backend/main.py lines 32-37. -/
def SYSTEM_PROMPT : String :=
  "You are MoodM8 — a short, empathetic, non-judgmental support assistant for young adults. " ++
  "Keep replies concise (2-6 sentences), ask one gentle clarifying question, offer a 1-2 simple coping step, " ++
  "and give safe resources if the user indicates crisis. Do NOT provide medical or legal advice. " ++
  "If the user expresses intent to self-harm or immediate danger, respond with supportive, urgent-escalation language and provide emergency resource suggestions."

/-- The fixed crisis reply from backend/main.py lines 63-67. -/
def CRISIS_REPLY : String :=
  "I\x27m really sorry — it sounds like you\x27re in serious distress. " ++
  "If you\x27re in India and in immediate danger, please call 112 now or the mental health helpline KIRAN: 1800-599-0019. " ++
  "If you want, I can connect you with coping steps and nearby support options. You are not alone."

/-- ASCII lower-casing of one character (`str.lower()` restricted to the
ASCII range, which is all the risk keywords use). -/
def lowerChar (c : Char) : Char :=
  if 65 ≤ c.toNat ∧ c.toNat ≤ 90 then Char.ofNat (c.toNat + 32) else c

/-- `text.lower()` on the ASCII range. -/
def strLower (s : String) : String :=
  String.mk (s.toList.map lowerChar)

/-- `contains_risk` from backend/main.py lines 51-53:
lower-case the text and test each risk keyword for substring containment. -/
def contains_risk (text : String) : Bool :=
  let low := strLower text
  RISK_KEYWORDS.any (fun k => strIn k low)

/-- One history entry (a Python dict `{"role": ..., "text": ...}`);
`none` models a missing (or `None`-valued) key, as read by `dict.get`. -/
structure HistMsg where
  role : Option String
  text : Option String
  deriving DecidableEq

/-- `ChatRequest` from backend/main.py lines 39-43. -/
structure ChatRequest where
  session_id : Option String := none
  message : String
  history : Option (List HistMsg) := none
  save_opt_in_ciphertext : Option String := none
  deriving DecidableEq

/-- `ChatResponse` from backend/main.py lines 45-49. -/
structure ChatResponse where
  session_id : String
  reply : String
  timestamp : String
  saved : Bool := false
  deriving DecidableEq

/-- The document written to the `saved_sessions` collection
(backend/main.py lines 73-78 and 110-116); the crisis branch writes no
`snippet` key, modelled by `snippet = none`. -/
structure SavedSessionRecord where
  session_id : String
  ciphertext : String
  created_at : String
  opt_in : Bool
  snippet : Option String
  deriving DecidableEq

/-- One content part of a model-response candidate
(`response.candidates[i].content[j]`, backend/main.py line 102). -/
structure Part where
  text : String
  deriving DecidableEq

/-- One candidate of the model response. -/
structure Candidate where
  content : List Part
  deriving DecidableEq

/-- The external model response as the handler observes it:
`text` models `getattr(response, "text", None)` (`none` = attribute absent
or `None`), `candidates` models the optional `candidates` attribute, and
`raw` models `str(response)`. -/
structure ModelResponse where
  text : Option String
  candidates : Option (List Candidate)
  raw : String
  deriving DecidableEq

/-- The environment of external effects: whether persistence is configured
(`save_enabled = bool(FIRESTORE_PROJECT)`, line 20), the next value of
`str(uuid.uuid4())`, the clock reading `datetime.utcnow().isoformat()`,
the model client as a function from prompt to result (`Except.error ()`
models the call raising), and whether the document-store write succeeds. -/
structure Env where
  save_enabled : Bool
  fresh_uuid : String
  now : String
  gen : String → Except Unit ModelResponse
  writeOk : Bool

deriving instance DecidableEq for Except

/-- Everything observable about one handler call: the HTTP result (error
detail string on failure), the prompts sent to the model, the document
passed to the store when a write was attempted, and the documents that
were actually persisted. -/
structure ChatOutcome where
  result : Except String ChatResponse
  modelCalls : List String
  writeAttempt : Option SavedSessionRecord
  persisted : List SavedSessionRecord
  deriving DecidableEq

/-- `req.session_id or str(uuid.uuid4())` (backend/main.py line 57):
Python truthiness sends both `None` and the empty string to a fresh UUID. -/
def resolveSid (env : Env) (req : ChatRequest) : String :=
  match req.session_id with
  | some s => if s.isEmpty then env.fresh_uuid else s
  | none => env.fresh_uuid

/-- Python truthiness of `Optional[str]`: `None` and `""` are falsy. -/
def truthyOpt : Option String → Bool
  | none => false
  | some s => !s.isEmpty

/-- The guard `req.save_opt_in_ciphertext and save_enabled`
(backend/main.py lines 71 and 108). -/
def optInActive (env : Env) (req : ChatRequest) : Bool :=
  truthyOpt req.save_opt_in_ciphertext && env.save_enabled

/-- The whitespace set of Python `str.strip()` (ASCII part). -/
def isWsp (c : Char) : Bool :=
  c = ' ' || c = '\t' || c = '\n' || c = '\x0d' || c = '\x0b' || c = '\x0c'

/-- `reply_text.strip()` (backend/main.py line 122): drop leading and
trailing whitespace. -/
def strTrim (s : String) : String :=
  String.mk (((s.toList.dropWhile isWsp).reverse.dropWhile isWsp).reverse)

/-- `reply_text[:n]` (backend/main.py line 115): the first `n` characters. -/
def strTake (s : String) (n : Nat) : String :=
  String.mk (s.toList.take n)

/-- Rendering of the text lookup inside the f-string: a missing value
prints as the literal `None`. -/
def textStr : Option String → String
  | some t => t
  | none => "None"

/-- The f-string rendering of one history entry (backend/main.py line 91):
the role lookup with default "user", a colon, then the text lookup. -/
def renderMsg (m : HistMsg) : String :=
  m.role.getD "user" ++ (": " ++ textStr m.text)

/-- The list `parts` built in backend/main.py lines 87-92: system prompt,
rendered history entries in order, then the new message as `user: ...`. -/
def promptParts (req : ChatRequest) : List String :=
  SYSTEM_PROMPT ::
    ((match req.history with
      | some l => l.map renderMsg
      | none => []) ++
     ["user: " ++ req.message])

/-- `prompt = "\n\n".join(parts)` (backend/main.py line 93). -/
def buildPrompt (req : ChatRequest) : String :=
  String.intercalate "\n\n" (promptParts req)

/-- The fallback of backend/main.py line 102 after `getattr` gave nothing
truthy: `response.candidates[0].content[0].text if hasattr(response,
"candidates") else str(response)`.  Indexing an empty list raises
(`Except.error ()`), which the surrounding `try` turns into the generic
failure. -/
def fallbackExtract (resp : ModelResponse) : Except Unit String :=
  match resp.candidates with
  | none => Except.ok resp.raw
  | some [] => Except.error ()
  | some (c :: _) =>
    match c.content with
    | [] => Except.error ()
    | p :: _ => Except.ok p.text

/-- Reply-text extraction, backend/main.py line 102:
`getattr(response, "text", None) or (...)`.  Python `or` falls through on
a falsy left operand, so an absent, `None`-valued, or empty `text` field
all continue with the fallback. -/
def extractText (resp : ModelResponse) : Except Unit String :=
  match resp.text with
  | some t => if t.isEmpty then fallbackExtract resp else Except.ok t
  | none => fallbackExtract resp

/-- The result of the optional-persistence block that both branches share
(backend/main.py lines 69-83 and 107-118): the final value of `saved`,
the document passed to `set` when a write was attempted, and the
documents actually persisted. -/
structure StoreResult where
  saved : Bool
  writeAttempt : Option SavedSessionRecord
  persisted : List SavedSessionRecord
  deriving DecidableEq

/-- The optional-persistence block (backend/main.py lines 69-83 and
107-118): under `req.save_opt_in_ciphertext and save_enabled`, build the
document and attempt the write; a raising write leaves `saved = False`
without failing the request. -/
def storeStep (env : Env) (sid now : String) (cipher snip : Option String) :
    StoreResult :=
  if truthyOpt cipher && env.save_enabled then
    let doc : SavedSessionRecord :=
      { session_id := sid, ciphertext := cipher.getD "",
        created_at := now, opt_in := true, snippet := snip }
    if env.writeOk then
      { saved := true, writeAttempt := some doc, persisted := [doc] }
    else
      { saved := false, writeAttempt := some doc, persisted := [] }
  else
    { saved := false, writeAttempt := none, persisted := [] }

/-- The outcome of `raise HTTPException(status_code=500, detail="AI
generation failed")` (backend/main.py line 105), reached after one model
invocation with the given prompt and before any persistence. -/
def failOutcome (prompt : String) : ChatOutcome :=
  { result := Except.error "AI generation failed",
    modelCalls := [prompt], writeAttempt := none, persisted := [] }

/-- The `/chat` handler, backend/main.py lines 55-122, as a pure function
of the request and the effect environment. -/
def chat (env : Env) (req : ChatRequest) : ChatOutcome :=
  let sid := resolveSid env req
  let now := env.now ++ "Z"
  if contains_risk req.message then
    let st := storeStep env sid now req.save_opt_in_ciphertext none
    { result := Except.ok
        { session_id := sid, reply := CRISIS_REPLY, timestamp := now, saved := st.saved },
      modelCalls := [], writeAttempt := st.writeAttempt, persisted := st.persisted }
  else
    let prompt := buildPrompt req
    match env.gen prompt with
    | Except.error _ => failOutcome prompt
    | Except.ok resp =>
      match extractText resp with
      | Except.error _ => failOutcome prompt
      | Except.ok replyText =>
        let st := storeStep env sid now req.save_opt_in_ciphertext
          (some (strTake replyText 200))
        { result := Except.ok
            { session_id := sid, reply := strTrim replyText, timestamp := now, saved := st.saved },
          modelCalls := [prompt], writeAttempt := st.writeAttempt, persisted := st.persisted }

/-! Concrete fixtures used to instantiate the theorems below. -/

/-- A stubbed successful model response carrying a direct text field. -/
def stubResp : ModelResponse :=
  { text := some "That sounds tough, want to talk about it?",
    candidates := none, raw := "RAW" }

/-- A model response with no usable text field and an empty candidate
list: extracting from it raises inside the try block of the handler. -/
def respEmptyCand : ModelResponse :=
  { text := none, candidates := some [], raw := "RAW" }

/-- A model response whose direct text field is present but empty: Python
`or` treats it as falsy and falls through to the raw stringification. -/
def respEmptyText : ModelResponse :=
  { text := some "", candidates := none, raw := "RAW" }

/-- Persistence disabled, model succeeds with `stubResp`. -/
def envStub : Env :=
  { save_enabled := false, fresh_uuid := "u-1", now := "T0",
    gen := fun _ => Except.ok stubResp, writeOk := false }

/-- Persistence disabled, model returns `respEmptyCand`. -/
def envEmptyCand : Env :=
  { save_enabled := false, fresh_uuid := "u-1", now := "T0",
    gen := fun _ => Except.ok respEmptyCand, writeOk := false }

/-- Persistence disabled, model returns `respEmptyText`. -/
def envEmptyText : Env :=
  { save_enabled := false, fresh_uuid := "u-1", now := "T0",
    gen := fun _ => Except.ok respEmptyText, writeOk := false }

/-- Persistence configured but the store write raises; the model call
raises as well. -/
def envSaveFail : Env :=
  { save_enabled := true, fresh_uuid := "u-1", now := "T0",
    gen := fun _ => Except.error (), writeOk := false }

/-- Persistence configured and the store write succeeds; the model call
raises. -/
def envSaveOk : Env :=
  { save_enabled := true, fresh_uuid := "u-1", now := "T0",
    gen := fun _ => Except.error (), writeOk := true }

/-- A risk-flagged request with no optional fields. -/
def reqRisk : ChatRequest := { message := "I want to end my life" }

/-- A risk-flagged request with every optional field supplied. -/
def reqRiskCipher : ChatRequest :=
  { session_id := none, message := "I have been hurting myself",
    history := some [{ role := some "user", text := some "hi" }],
    save_opt_in_ciphertext := some "CT" }

/-- A plain request with a caller-supplied session id. -/
def reqPlain : ChatRequest := { session_id := some "s", message := "hello" }

/-- A non-risk request with one ordinary history entry. -/
def reqHist : ChatRequest :=
  { message := "I had a rough day",
    history := some [{ role := some "user", text := some "hi" }] }

/-- A non-risk request with history and a ciphertext opt-in. -/
def reqHistCipher : ChatRequest :=
  { message := "I had a rough day",
    history := some [{ role := some "user", text := some "hi" }],
    save_opt_in_ciphertext := some "CT" }

/-- The record the crisis branch persists for `envSaveOk`/`reqRiskCipher`. -/
def docCrisis : SavedSessionRecord :=
  { session_id := "u-1", ciphertext := "CT", created_at := "T0Z",
    opt_in := true, snippet := none }

/-- A history entry with no `text` key. -/
def msgNoText : HistMsg := { role := none, text := none }

/-- A non-risk request whose single history entry lacks a `text` key. -/
def reqNoText : ChatRequest :=
  { message := "I had a rough day", history := some [msgNoText] }

section BranchEquations

/-- On a risk-flagged message the handler takes the crisis branch. -/
lemma chat_crisis_eq (env : Env) (req : ChatRequest)
    (h : contains_risk req.message = true) :
    chat env req =
      { result := Except.ok
          { session_id := resolveSid env req, reply := CRISIS_REPLY,
            timestamp := env.now ++ "Z",
            saved := (storeStep env (resolveSid env req) (env.now ++ "Z")
              req.save_opt_in_ciphertext none).saved },
        modelCalls := [],
        writeAttempt := (storeStep env (resolveSid env req) (env.now ++ "Z")
          req.save_opt_in_ciphertext none).writeAttempt,
        persisted := (storeStep env (resolveSid env req) (env.now ++ "Z")
          req.save_opt_in_ciphertext none).persisted } := by
  simp [chat, h]

/-- A raising model call yields the generic failure outcome. -/
lemma chat_gen_error_eq (env : Env) (req : ChatRequest)
    (h : contains_risk req.message = false)
    (hg : env.gen (buildPrompt req) = Except.error ()) :
    chat env req = failOutcome (buildPrompt req) := by
  simp [chat, h, hg]

/-- A raising reply-text extraction also yields the generic failure
outcome (it happens inside the same `try` block). -/
lemma chat_extract_error_eq (env : Env) (req : ChatRequest)
    (resp : ModelResponse)
    (h : contains_risk req.message = false)
    (hg : env.gen (buildPrompt req) = Except.ok resp)
    (he : extractText resp = Except.error ()) :
    chat env req = failOutcome (buildPrompt req) := by
  simp [chat, h, hg, he]

/-- The fully successful non-crisis branch. -/
lemma chat_ok_eq (env : Env) (req : ChatRequest)
    (resp : ModelResponse) (replyText : String)
    (h : contains_risk req.message = false)
    (hg : env.gen (buildPrompt req) = Except.ok resp)
    (he : extractText resp = Except.ok replyText) :
    chat env req =
      { result := Except.ok
          { session_id := resolveSid env req, reply := strTrim replyText,
            timestamp := env.now ++ "Z",
            saved := (storeStep env (resolveSid env req) (env.now ++ "Z")
              req.save_opt_in_ciphertext (some (strTake replyText 200))).saved },
        modelCalls := [buildPrompt req],
        writeAttempt := (storeStep env (resolveSid env req) (env.now ++ "Z")
          req.save_opt_in_ciphertext (some (strTake replyText 200))).writeAttempt,
        persisted := (storeStep env (resolveSid env req) (env.now ++ "Z")
          req.save_opt_in_ciphertext (some (strTake replyText 200))).persisted } := by
  simp [chat, h, hg, he]

/-- Case analysis on the result of the model call and extraction: every
non-crisis run is one of the three shapes above. -/
lemma chat_non_crisis_cases (env : Env) (req : ChatRequest) :
    (env.gen (buildPrompt req) = Except.error ()) ∨
    (∃ resp, env.gen (buildPrompt req) = Except.ok resp ∧
      extractText resp = Except.error ()) ∨
    (∃ resp replyText, env.gen (buildPrompt req) = Except.ok resp ∧
      extractText resp = Except.ok replyText) := by
  cases hg : env.gen (buildPrompt req) with
  | error e => exact Or.inl (by cases e; rfl)
  | ok resp =>
    cases he : extractText resp with
    | error e => exact Or.inr (Or.inl ⟨resp, rfl, by cases e; exact he⟩)
    | ok t => exact Or.inr (Or.inr ⟨resp, t, rfl, he⟩)

/-- The guard of `storeStep` in terms of the raw request data. -/
lemma truthyOpt_eq_true_iff (c : Option String) :
    truthyOpt c = true ↔ ∃ s, c = some s ∧ s ≠ "" := by
  cases c with
  | none => simp [truthyOpt]
  | some s => simp [truthyOpt, ← String.isEmpty_iff]

/-- `storeStep` attempts a write exactly under its guard, and the
attempted document is fixed. -/
lemma storeStep_writeAttempt (env : Env) (sid now : String)
    (cipher snip : Option String) :
    (storeStep env sid now cipher snip).writeAttempt =
      if truthyOpt cipher && env.save_enabled then
        some { session_id := sid, ciphertext := cipher.getD "",
               created_at := now, opt_in := true, snippet := snip }
      else none := by
  unfold storeStep
  split
  · split <;> rfl
  · rfl

/-- `saved` is true exactly when the guard held and the write succeeded. -/
lemma storeStep_saved (env : Env) (sid now : String)
    (cipher snip : Option String) :
    (storeStep env sid now cipher snip).saved =
      (truthyOpt cipher && env.save_enabled && env.writeOk) := by
  unfold storeStep
  split <;> rename_i hguard
  · split <;> rename_i hw <;> simp [hguard, hw]
  · have hg2 : (truthyOpt cipher && env.save_enabled) = false := by
      revert hguard
      cases truthyOpt cipher && env.save_enabled <;> simp
    simp [hg2]

/-- The persisted documents of `storeStep`: the attempted document when
the guard held and the write succeeded, nothing otherwise. -/
lemma storeStep_persisted (env : Env) (sid now : String)
    (cipher snip : Option String) :
    (storeStep env sid now cipher snip).persisted =
      if truthyOpt cipher && env.save_enabled && env.writeOk then
        [{ session_id := sid, ciphertext := cipher.getD "",
           created_at := now, opt_in := true, snippet := snip }]
      else [] := by
  unfold storeStep
  split <;> rename_i hguard
  · split <;> rename_i hw <;> simp [hguard, hw]
  · have hg2 : (truthyOpt cipher && env.save_enabled) = false := by
      revert hguard
      cases truthyOpt cipher && env.save_enabled <;> simp
    simp [hg2]

end BranchEquations

section SharedHelpers

/-- Python truthiness of the request guard in terms of the raw data. -/
lemma optInActive_iff (env : Env) (req : ChatRequest) :
    optInActive env req = true ↔
      (∃ c, req.save_opt_in_ciphertext = some c ∧ c ≠ "") ∧
      env.save_enabled = true := by
  simp [optInActive, Bool.and_eq_true, truthyOpt_eq_true_iff]

/-- Any document in the persisted list of `storeStep` has the fixed shape, and
its guard supplies the non-empty ciphertext. -/
lemma storeStep_mem (env : Env) (sid now : String) (cipher snip : Option String)
    (d : SavedSessionRecord)
    (hd : d ∈ (storeStep env sid now cipher snip).persisted) :
    (∃ c, cipher = some c ∧ c ≠ "" ∧ d.ciphertext = c) ∧
    d.session_id = sid ∧ d.created_at = now ∧ d.opt_in = true ∧
    d.snippet = snip := by
  rw [storeStep_persisted] at hd
  split at hd <;> rename_i hg
  · simp only [List.mem_singleton] at hd
    subst hd
    have ht : truthyOpt cipher = true := by
      simp only [Bool.and_eq_true] at hg
      exact hg.1.1
    rcases (truthyOpt_eq_true_iff cipher).mp ht with ⟨c, hc, hne⟩
    refine ⟨⟨c, hc, hne, ?_⟩, rfl, rfl, rfl, rfl⟩
    rw [hc]
    rfl
  · simp at hd

/-- Every non-crisis run issues exactly the one prompt built from the
request. -/
lemma chat_modelCalls_non_crisis (env : Env) (req : ChatRequest)
    (h : contains_risk req.message = false) :
    (chat env req).modelCalls = [buildPrompt req] := by
  rcases chat_non_crisis_cases env req with hg | ⟨resp, hg, he⟩ | ⟨resp, t, hg, he⟩
  · rw [chat_gen_error_eq env req h hg]; rfl
  · rw [chat_extract_error_eq env req resp h hg he]; rfl
  · rw [chat_ok_eq env req resp t h hg he]

/-- Every outcome is either the generic failure or a success whose fields
come from `resolveSid`, the timestamp, and one `storeStep` run. -/
lemma chat_shape (env : Env) (req : ChatRequest) :
    chat env req = failOutcome (buildPrompt req) ∨
    ∃ reply snip,
      (chat env req).result = Except.ok
        { session_id := resolveSid env req, reply := reply,
          timestamp := env.now ++ "Z",
          saved := (storeStep env (resolveSid env req) (env.now ++ "Z")
            req.save_opt_in_ciphertext snip).saved } ∧
      (chat env req).writeAttempt =
        (storeStep env (resolveSid env req) (env.now ++ "Z")
          req.save_opt_in_ciphertext snip).writeAttempt ∧
      (chat env req).persisted =
        (storeStep env (resolveSid env req) (env.now ++ "Z")
          req.save_opt_in_ciphertext snip).persisted := by
  cases hr : contains_risk req.message with
  | true =>
    refine Or.inr ⟨CRISIS_REPLY, none, ?_, ?_, ?_⟩ <;>
      rw [chat_crisis_eq env req hr]
  | false =>
    rcases chat_non_crisis_cases env req with hg | ⟨resp, hg, he⟩ | ⟨resp, t, hg, he⟩
    · exact Or.inl (chat_gen_error_eq env req hr hg)
    · exact Or.inl (chat_extract_error_eq env req resp hr hg he)
    · refine Or.inr ⟨strTrim t, some (strTake t 200), ?_, ?_, ?_⟩ <;>
      rw [chat_ok_eq env req resp t hr hg he]

/-- Any successful response carries the resolved session id. -/
lemma chat_ok_session (env : Env) (req : ChatRequest) (r : ChatResponse)
    (h : (chat env req).result = Except.ok r) :
    r.session_id = resolveSid env req := by
  rcases chat_shape env req with hs | ⟨reply, snip, hs, -, -⟩
  · rw [hs] at h; cases h
  · rw [hs] at h
    cases h
    rfl

end SharedHelpers

/-- Claim C1: for every request whose message contains a risk keyword
(case-insensitive substring), the handler returns the fixed crisis reply
text and never invokes the external model. -/
theorem chat_risk_fixed_reply_no_model_call (env : Env) (req : ChatRequest)
    (h : contains_risk req.message = true) :
    (chat env req).modelCalls = [] ∧
    ∃ r, (chat env req).result = Except.ok r ∧ r.reply = CRISIS_REPLY := by
  rw [chat_crisis_eq env req h]
  exact ⟨rfl, _, rfl, rfl⟩

/-- Claim C1, instantiated: a message containing "end my life" gets the
crisis reply with no model call. -/
theorem chat_risk_fixed_reply_no_model_call_witness :
    contains_risk reqRisk.message = true ∧
    ((chat envStub reqRisk).modelCalls = [] ∧
     ∃ r, (chat envStub reqRisk).result = Except.ok r ∧ r.reply = CRISIS_REPLY) :=
  ⟨by decide, chat_risk_fixed_reply_no_model_call envStub reqRisk (by decide)⟩

/-- Claim C9: the crisis branch is total — every risk-flagged request, with
any combination of session id, history, ciphertext, persistence
configuration and write outcome, yields a successful response. -/
theorem chat_crisis_total (env : Env) (req : ChatRequest)
    (h : contains_risk req.message = true) :
    ∃ r, (chat env req).result = Except.ok r := by
  rw [chat_crisis_eq env req h]
  exact ⟨_, rfl⟩

/-- Claim C9, instantiated: a risk-flagged request with history and
ciphertext, against a raising model and a raising store, still succeeds. -/
theorem chat_crisis_total_witness :
    contains_risk reqRiskCipher.message = true ∧
    ∃ r, (chat envSaveFail reqRiskCipher).result = Except.ok r :=
  ⟨by decide, chat_crisis_total envSaveFail reqRiskCipher (by decide)⟩

/-- Claim C2: every non-crisis request issues exactly one model invocation,
whose prompt is the system instruction, the history entries rendered as
"role: text" in order (role defaulting to "user"), and "user: message",
joined by blank lines. -/
theorem chat_non_crisis_single_call_prompt (env : Env) (req : ChatRequest)
    (h : contains_risk req.message = false) :
    (chat env req).modelCalls =
      [String.intercalate "

"
        (SYSTEM_PROMPT ::
          ((req.history.getD []).map
            (fun m => m.role.getD "user" ++ (": " ++ textStr m.text)) ++
           ["user: " ++ req.message]))] := by
  rw [chat_modelCalls_non_crisis env req h]
  cases hh : req.history <;>
    (simp [buildPrompt, promptParts, renderMsg, hh]; try rfl)

/-- Claim C2, instantiated on a request with one history entry. -/
theorem chat_non_crisis_single_call_prompt_witness :
    contains_risk reqHist.message = false ∧
    (chat envStub reqHist).modelCalls =
      [String.intercalate "

"
        (SYSTEM_PROMPT ::
          ((reqHist.history.getD []).map
            (fun m => m.role.getD "user" ++ (": " ++ textStr m.text)) ++
           ["user: " ++ reqHist.message]))] :=
  ⟨by decide, chat_non_crisis_single_call_prompt envStub reqHist (by decide)⟩

/-- Claim C4: on either branch, a persistence write is attempted only when
the caller supplied a non-empty ciphertext and persistence is configured;
in every other combination no write happens and the response (when there
is one) carries `saved = false`. -/
theorem chat_write_gating (env : Env) (req : ChatRequest) :
    ((chat env req).writeAttempt.isSome = true →
      (∃ c, req.save_opt_in_ciphertext = some c ∧ c ≠ "") ∧
      env.save_enabled = true) ∧
    (¬((∃ c, req.save_opt_in_ciphertext = some c ∧ c ≠ "") ∧
        env.save_enabled = true) →
      (chat env req).writeAttempt = none ∧
      ∀ r, (chat env req).result = Except.ok r → r.saved = false) := by
  rcases chat_shape env req with hs | ⟨reply, snip, hres, hwa, -⟩
  · constructor
    · intro hw
      rw [hs] at hw
      simp [failOutcome] at hw
    · intro hng
      refine ⟨by rw [hs]; rfl, ?_⟩
      intro r hr
      rw [hs] at hr
      cases hr
  · constructor
    · intro hw
      rw [hwa, storeStep_writeAttempt] at hw
      by_cases hb :
          (truthyOpt req.save_opt_in_ciphertext && env.save_enabled) = true
      · exact (optInActive_iff env req).mp hb
      · rw [if_neg hb] at hw
        simp at hw
    · intro hng
      have hb :
          (truthyOpt req.save_opt_in_ciphertext && env.save_enabled) = false := by
        cases hb2 : truthyOpt req.save_opt_in_ciphertext && env.save_enabled
        · rfl
        · exact absurd ((optInActive_iff env req).mp hb2) hng
      refine ⟨?_, ?_⟩
      · rw [hwa, storeStep_writeAttempt, hb]
        rfl
      · intro r hr
        rw [hres] at hr
        cases hr
        show (storeStep env (resolveSid env req) (env.now ++ "Z")
          req.save_opt_in_ciphertext snip).saved = false
        rw [storeStep_saved, hb]
        rfl

/-- Claim C4, instantiated: no ciphertext supplied means no write and
`saved = false`. -/
theorem chat_write_gating_witness :
    (chat envStub reqRisk).writeAttempt = none ∧
    (chat envStub reqRisk).result = Except.ok
      { session_id := "u-1", reply := CRISIS_REPLY,
        timestamp := "T0Z", saved := false } ∧
    ({ session_id := "u-1", reply := CRISIS_REPLY,
       timestamp := "T0Z", saved := false } : ChatResponse).saved = false := by
  have hng : ¬((∃ c, reqRisk.save_opt_in_ciphertext = some c ∧ c ≠ "") ∧
      envStub.save_enabled = true) := by
    rintro ⟨⟨c, hc, -⟩, -⟩
    simp [reqRisk] at hc
  have h := (chat_write_gating envStub reqRisk).2 hng
  exact ⟨h.1, by decide, h.2 _ (by decide)⟩

/-- Claim C5: whenever a write is attempted, the request still succeeds,
with `saved` reporting exactly whether the write went through. -/
theorem chat_write_failure_never_fails (env : Env) (req : ChatRequest)
    (h : (chat env req).writeAttempt.isSome = true) :
    ∃ r, (chat env req).result = Except.ok r ∧ r.saved = env.writeOk := by
  rcases chat_shape env req with hs | ⟨reply, snip, hres, hwa, -⟩
  · rw [hs] at h
    simp [failOutcome] at h
  · refine ⟨_, hres, ?_⟩
    show (storeStep env (resolveSid env req) (env.now ++ "Z")
      req.save_opt_in_ciphertext snip).saved = env.writeOk
    rw [hwa, storeStep_writeAttempt] at h
    by_cases hb :
        (truthyOpt req.save_opt_in_ciphertext && env.save_enabled) = true
    · rw [storeStep_saved, hb]
      simp
    · rw [if_neg hb] at h
      simp at h

/-- Claim C5, instantiated: the store write raises, yet the risk-flagged
opt-in request succeeds with `saved = false`. -/
theorem chat_write_failure_never_fails_witness :
    (chat envSaveFail reqRiskCipher).writeAttempt.isSome = true ∧
    ∃ r, (chat envSaveFail reqRiskCipher).result = Except.ok r ∧
      r.saved = envSaveFail.writeOk :=
  ⟨by decide, chat_write_failure_never_fails envSaveFail reqRiskCipher (by decide)⟩

/-- Claim C8: a supplied non-empty session id is returned verbatim; an
absent or empty one is replaced by the freshly generated identifier, and
two calls with distinct fresh identifiers return distinct session ids. -/
theorem chat_session_id_roundtrip (env env' : Env) (req req' : ChatRequest) :
    (∀ s, req.session_id = some s → s ≠ "" →
      ∀ r, (chat env req).result = Except.ok r → r.session_id = s) ∧
    ((req.session_id = none ∨ req.session_id = some "") →
      ∀ r, (chat env req).result = Except.ok r →
        r.session_id = env.fresh_uuid) ∧
    (req.session_id = none → req'.session_id = none →
      env.fresh_uuid ≠ env'.fresh_uuid →
      ∀ r r', (chat env req).result = Except.ok r →
        (chat env' req').result = Except.ok r' →
        r.session_id ≠ r'.session_id) := by
  refine ⟨?_, ?_, ?_⟩
  · intro s hse hne r hr
    have hie : s.isEmpty = false := by
      cases h2 : s.isEmpty with
      | false => rfl
      | true => exact absurd ((String.isEmpty_iff _).mp h2) hne
    rw [chat_ok_session env req r hr]
    simp [resolveSid, hse, hie]
  · intro hor r hr
    rw [chat_ok_session env req r hr]
    have hee : ("" : String).isEmpty = true := rfl
    rcases hor with h1 | h1 <;> simp [resolveSid, h1, hee]
  · intro h1 h2 hne r r' hr hr'
    rw [chat_ok_session env req r hr, chat_ok_session env' req' r' hr']
    simp [resolveSid, h1, h2]
    exact hne

/-- Claim C8, instantiated: session id "s" round-trips through a
successful non-crisis call. -/
theorem chat_session_id_roundtrip_witness :
    reqPlain.session_id = some "s" ∧ ("s" : String) ≠ "" ∧
    (chat envStub reqPlain).result = Except.ok
      { session_id := "s", reply := "That sounds tough, want to talk about it?",
        timestamp := "T0Z", saved := false } ∧
    ({ session_id := "s", reply := "That sounds tough, want to talk about it?",
       timestamp := "T0Z", saved := false } : ChatResponse).session_id = "s" :=
  ⟨rfl, by decide, by decide,
   (chat_session_id_roundtrip envStub envStub reqPlain reqPlain).1 "s" rfl
     (by decide) _ (by decide)⟩

/-- Claim C6: every persisted record carries the resolved session id, the
caller-supplied ciphertext verbatim, the creation timestamp and `opt_in = true`;
on the crisis branch it has no snippet, on the non-crisis branch its
snippet is the first 200 characters of the extracted reply. -/
theorem chat_persisted_record_shape (env : Env) (req : ChatRequest)
    (d : SavedSessionRecord) (hd : d ∈ (chat env req).persisted) :
    d.session_id = resolveSid env req ∧
    (∃ c, req.save_opt_in_ciphertext = some c ∧ c ≠ "" ∧ d.ciphertext = c) ∧
    d.created_at = env.now ++ "Z" ∧
    d.opt_in = true ∧
    (contains_risk req.message = true → d.snippet = none) ∧
    (contains_risk req.message = false →
      ∃ resp t, env.gen (buildPrompt req) = Except.ok resp ∧
        extractText resp = Except.ok t ∧ d.snippet = some (strTake t 200)) := by
  cases hr : contains_risk req.message with
  | true =>
    rw [chat_crisis_eq env req hr] at hd
    have hd2 : d ∈ (storeStep env (resolveSid env req) (env.now ++ "Z")
        req.save_opt_in_ciphertext none).persisted := hd
    obtain ⟨⟨c, hc, hne, hct⟩, hsid, hca, hoi, hsn⟩ :=
      storeStep_mem env (resolveSid env req) (env.now ++ "Z")
        req.save_opt_in_ciphertext none d hd2
    exact ⟨hsid, ⟨c, hc, hne, hct⟩, hca, hoi, fun _ => hsn,
      fun hf => Bool.noConfusion hf⟩
  | false =>
    rcases chat_non_crisis_cases env req with hg | ⟨resp, hg, he⟩ | ⟨resp, t, hg, he⟩
    · rw [chat_gen_error_eq env req hr hg] at hd
      simp [failOutcome] at hd
    · rw [chat_extract_error_eq env req resp hr hg he] at hd
      simp [failOutcome] at hd
    · rw [chat_ok_eq env req resp t hr hg he] at hd
      have hd2 : d ∈ (storeStep env (resolveSid env req) (env.now ++ "Z")
          req.save_opt_in_ciphertext (some (strTake t 200))).persisted := hd
      obtain ⟨⟨c, hc, hne, hct⟩, hsid, hca, hoi, hsn⟩ :=
        storeStep_mem env (resolveSid env req) (env.now ++ "Z")
          req.save_opt_in_ciphertext (some (strTake t 200)) d hd2
      exact ⟨hsid, ⟨c, hc, hne, hct⟩, hca, hoi,
        fun hf => Bool.noConfusion hf, fun _ => ⟨resp, t, hg, he, hsn⟩⟩

/-- Claim C6, instantiated: the record persisted by an opted-in crisis
request. -/
theorem chat_persisted_record_shape_witness :
    docCrisis ∈ (chat envSaveOk reqRiskCipher).persisted ∧
    docCrisis.session_id = resolveSid envSaveOk reqRiskCipher ∧
    (∃ c, reqRiskCipher.save_opt_in_ciphertext = some c ∧ c ≠ "" ∧
      docCrisis.ciphertext = c) ∧
    docCrisis.snippet = none := by
  have hd : docCrisis ∈ (chat envSaveOk reqRiskCipher).persisted := by decide
  have h := chat_persisted_record_shape envSaveOk reqRiskCipher docCrisis hd
  exact ⟨hd, h.1, h.2.1, h.2.2.2.2.1 (by decide)⟩

/-- Claim C3, counterexample: the model call succeeds (returns a response
object), yet because that response has no usable text field and an empty
candidate list, the extraction raises inside the same `try` block and the
handler still propagates "AI generation failed" — so the error is not
raised exactly when the model call itself fails. -/
theorem chat_error_despite_ok_model_call :
    envEmptyCand.gen (buildPrompt reqPlain) = Except.ok respEmptyCand ∧
    (chat envEmptyCand reqPlain).result = Except.error "AI generation failed" :=
  ⟨rfl, by decide⟩

/-- Claim C3 as amended: "AI generation failed" is the only propagated
failure; it occurs exactly when, on the non-crisis branch, the model call
raises or the reply extraction from its response raises; and on every
error no record is persisted. -/
theorem chat_error_characterization (env : Env) (req : ChatRequest) :
    (∀ e, (chat env req).result = Except.error e → e = "AI generation failed") ∧
    ((chat env req).result = Except.error "AI generation failed" ↔
      contains_risk req.message = false ∧
        (env.gen (buildPrompt req) = Except.error () ∨
         ∃ resp, env.gen (buildPrompt req) = Except.ok resp ∧
           extractText resp = Except.error ())) ∧
    (∀ e, (chat env req).result = Except.error e →
      (chat env req).writeAttempt = none ∧ (chat env req).persisted = []) := by
  cases hr : contains_risk req.message with
  | true =>
    have heq := chat_crisis_eq env req hr
    refine ⟨?_, ?_, ?_⟩
    · intro e h2
      rw [heq] at h2
      simp at h2
    · constructor
      · intro h2
        rw [heq] at h2
        simp at h2
      · rintro ⟨hf, -⟩
        exact Bool.noConfusion hf
    · intro e h2
      rw [heq] at h2
      simp at h2
  | false =>
    rcases chat_non_crisis_cases env req with hg | ⟨resp, hg, he⟩ | ⟨resp, t, hg, he⟩
    · have heq := chat_gen_error_eq env req hr hg
      refine ⟨?_, ?_, ?_⟩
      · intro e h2
        rw [heq] at h2
        simp [failOutcome] at h2
        exact h2.symm
      · exact ⟨fun _ => ⟨rfl, Or.inl hg⟩, fun _ => by rw [heq]; rfl⟩
      · intro e h2
        rw [heq]
        exact ⟨rfl, rfl⟩
    · have heq := chat_extract_error_eq env req resp hr hg he
      refine ⟨?_, ?_, ?_⟩
      · intro e h2
        rw [heq] at h2
        simp [failOutcome] at h2
        exact h2.symm
      · exact ⟨fun _ => ⟨rfl, Or.inr ⟨resp, hg, he⟩⟩, fun _ => by rw [heq]; rfl⟩
      · intro e h2
        rw [heq]
        exact ⟨rfl, rfl⟩
    · have heq := chat_ok_eq env req resp t hr hg he
      refine ⟨?_, ?_, ?_⟩
      · intro e h2
        rw [heq] at h2
        simp at h2
      · constructor
        · intro h2
          rw [heq] at h2
          simp at h2
        · rintro ⟨-, hbad | ⟨resp2, hg2, he2⟩⟩
          · rw [hg] at hbad
            cases hbad
          · rw [hg] at hg2
            injection hg2 with hh
            subst hh
            rw [he] at he2
            cases he2
      · intro e h2
        rw [heq] at h2
        simp at h2

/-- Claim C3 amended, instantiated: a raising model call on a non-crisis
opted-in request yields the generic error and persists nothing. -/
theorem chat_error_characterization_witness :
    (chat envSaveFail reqHistCipher).result =
      Except.error "AI generation failed" ∧
    (chat envSaveFail reqHistCipher).writeAttempt = none ∧
    (chat envSaveFail reqHistCipher).persisted = [] := by
  have h := chat_error_characterization envSaveFail reqHistCipher
  have h1 : (chat envSaveFail reqHistCipher).result =
      Except.error "AI generation failed" :=
    h.2.1.mpr ⟨by decide, Or.inl rfl⟩
  exact ⟨h1, h.2.2 _ h1⟩

/-- Claim C7, counterexample: the direct text field of the response is present
(the empty string), yet the handler does not use it — it falls through to
the stringified raw response, because Python `or` tests truthiness, not
presence. -/
theorem chat_empty_text_field_falls_through :
    respEmptyText.text = some "" ∧
    envEmptyText.gen (buildPrompt reqPlain) = Except.ok respEmptyText ∧
    (chat envEmptyText reqPlain).result = Except.ok
      { session_id := "s", reply := "RAW", timestamp := "T0Z", saved := false } ∧
    ¬ (("RAW" : String) = strTrim "") :=
  ⟨rfl, rfl, by decide, by decide⟩

/-- Claim C7 as amended: the reply is the trimmed extracted text, where
extraction uses the direct text field only when present AND non-empty,
else the first content segment of the first candidate when a candidates
attribute is present, else the stringified raw response. -/
theorem chat_reply_extraction_fallback (env : Env) (req : ChatRequest)
    (resp : ModelResponse) (t : String)
    (h : contains_risk req.message = false)
    (hg : env.gen (buildPrompt req) = Except.ok resp)
    (he : extractText resp = Except.ok t) :
    (∃ r, (chat env req).result = Except.ok r ∧ r.reply = strTrim t) ∧
    (∀ s, resp.text = some s → s ≠ "" → t = s) ∧
    ((resp.text = none ∨ resp.text = some "") → resp.candidates = none →
      t = resp.raw) ∧
    (∀ c cs p ps, (resp.text = none ∨ resp.text = some "") →
      resp.candidates = some (c :: cs) → c.content = p :: ps →
      t = p.text) := by
  have hee : ("" : String).isEmpty = true := rfl
  refine ⟨?_, ?_, ?_, ?_⟩
  · rw [chat_ok_eq env req resp t h hg he]
    exact ⟨_, rfl, rfl⟩
  · intro s hs hne
    have hie : s.isEmpty = false := by
      cases h2 : s.isEmpty with
      | false => rfl
      | true => exact absurd ((String.isEmpty_iff _).mp h2) hne
    simp [extractText, hs, hie] at he
    exact he.symm
  · rintro (hx | hx) hc <;>
      (simp [extractText, fallbackExtract, hx, hc, hee] at he; exact he.symm)
  · intro c cs p ps hx hc hcc
    rcases hx with hx | hx <;>
      (simp [extractText, fallbackExtract, hx, hc, hcc, hee] at he;
       exact he.symm)

/-- Claim C7 amended, instantiated on a response with a non-empty direct
text field. -/
theorem chat_reply_extraction_fallback_witness :
    contains_risk reqHist.message = false ∧
    envStub.gen (buildPrompt reqHist) = Except.ok stubResp ∧
    extractText stubResp =
      Except.ok "That sounds tough, want to talk about it?" ∧
    ∃ r, (chat envStub reqHist).result = Except.ok r ∧
      r.reply = strTrim "That sounds tough, want to talk about it?" :=
  ⟨by decide, rfl, by decide,
   (chat_reply_extraction_fallback envStub reqHist stubResp
     "That sounds tough, want to talk about it?"
     (by decide) rfl (by decide)).1⟩

/-- Claim C10: a history entry lacking a text field is neither rejected
nor skipped — the single prompt still goes out, and the entry appears in
the prompt parts rendered with the literal string "None" as its text. -/
theorem chat_history_missing_text_rendered_none (env : Env)
    (req : ChatRequest) (l : List HistMsg) (m : HistMsg)
    (h : contains_risk req.message = false)
    (hl : req.history = some l) (hm : m ∈ l) (ht : m.text = none) :
    (chat env req).modelCalls =
      [String.intercalate "

" (promptParts req)] ∧
    (m.role.getD "user" ++ ": None") ∈ promptParts req := by
  refine ⟨?_, ?_⟩
  · rw [chat_modelCalls_non_crisis env req h]
    rfl
  · have hrm : renderMsg m = m.role.getD "user" ++ ": None" := by
      unfold renderMsg
      rw [ht]
      exact congrArg (fun x => m.role.getD "user" ++ x) (by decide)
    rw [← hrm]
    simp only [promptParts, hl, List.mem_cons, List.mem_append,
      List.mem_map, List.mem_singleton]
    exact Or.inr (Or.inl ⟨m, hm, rfl⟩)

/-- Claim C10, instantiated: a single history entry with no text renders
as "user: None" in the prompt parts. -/
theorem chat_history_missing_text_rendered_none_witness :
    contains_risk reqNoText.message = false ∧
    reqNoText.history = some [msgNoText] ∧
    msgNoText.text = none ∧
    ((chat envStub reqNoText).modelCalls =
      [String.intercalate "

" (promptParts reqNoText)] ∧
    (msgNoText.role.getD "user" ++ ": None") ∈ promptParts reqNoText) :=
  ⟨by decide, rfl, rfl,
   chat_history_missing_text_rendered_none envStub reqNoText [msgNoText]
     msgNoText (by decide) rfl (List.Mem.head _) rfl⟩

end MoodM8
